import Mathlib

/-!
Verification of arvindverma63/Video_To_Gif against its specification.

The repository has two source files: `app.py` (Flask HTTP handler plus the
video→GIF conversion routine built on OpenCV/PIL) and
`services/image_service.py` (upload to the ImgBB image host).  We embed the
pure control flow and arithmetic of those files shallowly: machine floats
become rationals (the quantities involved — frame rates, scale factors —
are exactly representable here), the OpenCV capture handle and the
filesystem become explicit boolean state, and Python exceptions become
explicit branches mirroring the `try/except/finally` structure of the code.
-/

namespace VideoToGif

/-- Python `int(q)`: truncation toward zero (`int(2.9) = 2`, `int(-2.9) = -2`). -/
def pyint (q : ℚ) : ℤ := if 0 ≤ q then ⌊q⌋ else -⌊-q⌋

/-- `app.py` lines 62–64: `original_fps = cap.get(cv2.CAP_PROP_FPS)`; if it is
non-positive, default to 30. -/
def effectiveFps (original_fps : ℚ) : ℚ :=
  if original_fps ≤ 0 then 30 else original_fps

/-- `app.py` line 67: `frame_step = max(1, int(original_fps / fps))`.
The result is at least 1, so we expose it as a natural number. -/
def frame_step (original_fps : ℚ) (fps : ℤ) : ℕ :=
  (max 1 (pyint (effectiveFps original_fps / (fps : ℚ)))).toNat

/-- A decoded raster frame; only the dimensions matter for the claims. -/
structure Frame where
  width : ℕ
  height : ℕ
deriving DecidableEq, Repr

instance : Inhabited Frame := ⟨⟨0, 0⟩⟩

/-- `app.py` lines 45–52 (`resize_frame`): if `scale == 1.0` return the frame
unchanged, else `new_height, new_width = int(height*scale), int(width*scale)`
and resize to `(new_width, new_height)`. -/
def resize_frame (frame : Frame) (scale : ℚ) : Frame :=
  if scale = 1 then frame
  else ⟨(pyint ((frame.width : ℚ) * scale)).toNat,
        (pyint ((frame.height : ℚ) * scale)).toNat⟩

/-- Formalisation of the SPEC's resize rule (§4.1), for comparison with the
code's `resize_frame`: when scale ≠ 1.0, new dimensions = round(original ×
scale) per axis.  (The GIF codec requires no even-dimension adjustment, so
that clause of the spec sentence is vacuous here.) -/
def resize_frame_spec (frame : Frame) (scale : ℚ) : Frame :=
  if scale = 1 then frame
  else ⟨(round ((frame.width : ℚ) * scale)).toNat,
        (round ((frame.height : ℚ) * scale)).toNat⟩

/-- The indices sampled by the read loop of `app.py` lines 70–86: the loop
keeps frame `frame_count` exactly when `frame_count % frame_step == 0`,
for `frame_count = 0, 1, …, N−1` in source order. -/
def sampledIndices (N S : ℕ) : List ℕ :=
  (List.range N).filter (fun i => i % S = 0)

/-- The list of frames appended to `frames` by the read loop (lines 70–86):
every sampled frame, resized by `resize_frame`, in source order. -/
def extracted (frames : List Frame) (S : ℕ) (scale : ℚ) : List Frame :=
  (sampledIndices frames.length S).map
    (fun i => resize_frame (frames.getD i default) scale)

/-- The behaviour of one video source as the OpenCV calls in
`convert_video_to_gif` observe it: whether `cv2.VideoCapture` opens it, the
`CAP_PROP_FPS` value, the ordered list of decodable frames (`cap.read`
succeeds exactly that many times), and whether the final `PIL` `save` call
succeeds (it can raise, e.g. on a full disk). -/
structure VideoInput where
  openable : Bool
  original_fps : ℚ
  frames : List Frame
  saveOk : Bool

/-- The observable outcome of `convert_video_to_gif`: the returned
`(success, message)` pair, whether the capture handle is still open when the
function returns, and whether a GIF was written to the output path. -/
structure ConvertOut where
  success : Bool
  message : String
  handleOpen : Bool
  gifWritten : Bool
deriving DecidableEq, Repr

/-- `app.py` lines 54–112, `convert_video_to_gif(input_path, output_path,
fps, scale)`.  Branches in source order: unopenable source returns
`(False, "Could not open video file")` (the handle was never open); with
`fps = 0` line 67 raises `ZeroDivisionError`, the `except` catches it and the
`finally` releases the handle; the read loop keeps every `frame_step`-th
frame resized (`extracted`); the handle is released (line 89); an empty
frame list returns `(False, "No frames extracted from video")`; then the
frames are saved as a GIF — a raising `save` is caught by the `except`
(message prefix `"Error converting video to GIF: "`). -/
def convert_video_to_gif (v : VideoInput) (fps : ℤ) (scale : ℚ) : ConvertOut :=
  if v.openable = false then
    ⟨false, "Could not open video file", false, false⟩
  else if fps = 0 then
    ⟨false, "Error converting video to GIF: float division by zero", false, false⟩
  else
    let fs := extracted v.frames (frame_step v.original_fps fps) scale
    if fs = [] then
      ⟨false, "No frames extracted from video", false, false⟩
    else if v.saveOk then
      ⟨true, "Conversion successful", false, true⟩
    else
      ⟨false, "Error converting video to GIF: save failed", false, false⟩

/-- The two messages of `convert_video_to_gif` that the spec's `DecodeError`
taxonomy covers (unreadable source / zero frames after sampling). -/
def isDecodeError (r : ConvertOut) : Prop :=
  r.message = "Could not open video file" ∨
  r.message = "No frames extracted from video"

instance (r : ConvertOut) : Decidable (isDecodeError r) := by
  unfold isDecodeError; infer_instance

/-- An HTTP request as `VideoToGif.post` observes it: presence of the
`video` field in `request.files`, its filename, its byte size, and the
parsed `fps` and `scale` form values. -/
structure Request where
  hasVideo : Bool
  filename : String
  fileSize : ℕ
  fps : ℤ
  scale : ℚ

/-- The parts of the world `VideoToGif.post` interacts with besides the
request: the uploaded video's decode behaviour, whether `safe_remove`
succeeds on the input and output files (it returns `False` after exhausting
its retries on `EACCES`), and whether `send_file` raises. -/
structure Env where
  video : VideoInput
  removeInputOk : Bool
  removeOutputOk : Bool
  sendOk : Bool

/-- An HTTP response of the handler, abstracting status and message. -/
inductive Response where
  | badRequest (msg : String)
  | serverError (msg : String)
  | gif
deriving DecidableEq, Repr

/-- Whether a response has status 400. -/
def is400 : Response → Bool
  | .badRequest _ => true
  | _ => false

/-- The handler's result together with the final filesystem state: whether
the saved upload and the output artifact still exist when it returns. -/
structure HandlerOut where
  resp : Response
  inputExists : Bool
  outputExists : Bool
deriving DecidableEq, Repr

/-- `app.py` lines 120–165, `VideoToGif.post`.  Branches in source order:
400 when the `video` field is absent; 400 when the filename is empty; the
upload is then saved to `input_path`; 400 when `fps ≤ 0` or `scale ≤ 0`
(line 140 calls `safe_remove(input_path)` but discards its result, so a
failed removal leaves the file and is not reported); `convert_video_to_gif`
runs; a failed input cleanup afterwards returns a distinct 500; a failed
conversion returns 500 with its message; `send_file` raising returns 500
without removing the output; a failed output cleanup returns a distinct
500 (output leaked); otherwise the GIF response is returned.  The model
covers `safe_remove`'s EACCES behaviour; a non-EACCES `OSError` re-raises
and is out of scope. -/
def post (req : Request) (env : Env) : HandlerOut :=
  if req.hasVideo = false then
    ⟨.badRequest "No video file provided", false, false⟩
  else if req.filename = "" then
    ⟨.badRequest "No file selected", false, false⟩
  else if req.fps ≤ 0 ∨ req.scale ≤ 0 then
    ⟨.badRequest "FPS and scale must be positive", !env.removeInputOk, false⟩
  else
    let r := convert_video_to_gif env.video req.fps req.scale
    if env.removeInputOk = false then
      ⟨.serverError "Failed to clean up input file due to access issue", true, r.gifWritten⟩
    else if r.success = false then
      ⟨.serverError r.message, false, r.gifWritten⟩
    else if env.sendOk = false then
      ⟨.serverError "Error sending GIF: send failed", false, true⟩
    else if env.removeOutputOk = false then
      ⟨.serverError "Failed to clean up output file due to access issue", false, true⟩
    else
      ⟨.gif, false, false⟩

end VideoToGif

namespace ImageService

/-- The body of an HTTP response from ImgBB as `upload_image` observes it:
whether `response.json()` parses, the top-level `status` field, the
`data.url` field, and the `error.message` field (each absent fields give
`none`; `.get` chains default them). -/
structure RespBody where
  jsonOk : Bool
  jstatus : Option ℤ
  dataUrl : Option String
  errorMessage : Option String

/-- What `requests.post` produces: either it raises (network error,
timeout, …) with some exception text, or it returns a response with a
status code and a body. -/
inductive HttpOutcome where
  | raised (msg : String)
  | response (status : ℕ) (body : RespBody)

/-- The dict returned by `ImageService.upload_image`:
`{'success': bool, 'url': str or None, 'error': str or None}`. -/
structure UploadResult where
  success : Bool
  url : Option String
  error : Option String
deriving DecidableEq, Repr

/-- `services/image_service.py` lines 18–36, `ImageService.upload_image`.
The whole body is wrapped in `try/except Exception`, so the function never
raises — reflected here by totality.  Branches: a raising `requests.post`
lands in the `except` (message prefix `"An error occurred: "`); a body
whose `.json()` raises also lands there (it is called in the success test
when the status is 200, and in the error branch otherwise); status 200 with
JSON `status == 200` reads `data.url` (a missing key raises `KeyError`,
caught); any other response reads `error.message`, defaulting to
`"Unknown error"`. -/
def upload_image (o : HttpOutcome) : UploadResult :=
  match o with
  | .raised m => ⟨false, none, some ("An error occurred: " ++ m)⟩
  | .response status b =>
    if b.jsonOk = false then
      ⟨false, none, some "An error occurred: malformed JSON"⟩
    else if status = 200 ∧ b.jstatus = some 200 then
      match b.dataUrl with
      | some u => ⟨true, some u, none⟩
      | none => ⟨false, none, some "An error occurred: KeyError"⟩
    else
      ⟨false, none, some (b.errorMessage.getD "Unknown error")⟩

/-- The failure modes of the upload call, read off the source's own success
condition: anything other than a returned response with parseable JSON,
HTTP status 200, JSON `status` 200 and a present `data.url` is a failure
(network error/timeout, non-200 status, malformed JSON, unexpected JSON
shape). -/
def isFailureOutcome : HttpOutcome → Prop
  | .raised _ => True
  | .response status b =>
    ¬(b.jsonOk = true ∧ status = 200 ∧ b.jstatus = some 200 ∧ b.dataUrl.isSome = true)

end ImageService

namespace AdaptiveEncoder

/-- Modelled from the spec: `maxAttempts` of the adaptive encoder (§4.2),
a component of the size-bounded variant whose code is not in this
repository checkout. -/
def maxAttempts : ℕ := 3

/-- Modelled from the spec: an `EncodingPlan` — the parameters of one
encode attempt (§3). -/
structure Plan where
  fps : ℤ
  scale : ℚ
deriving DecidableEq, Repr

/-- Modelled from the spec: the plan of attempt `n` (§4.2) — attempt 0 uses
the caller-requested `(fps₀, scale₀)`; retry `n ≥ 1` uses
`fps = max(5, fps₀ − 2·n)` and `scale = 1.0 − 0.2·n`. -/
def planAt (fps0 : ℤ) (scale0 : ℚ) : ℕ → Plan
  | 0 => ⟨fps0, scale0⟩
  | (n + 1) => ⟨max 5 (fps0 - 2 * ((n : ℤ) + 1)), 1 - ((n : ℚ) + 1) / 5⟩

/-- Modelled from the spec: outcome of the adaptive encoder — an artifact
with its byte size, or `CompressionBudgetExceeded` (§4.2). -/
inductive EncodeResult where
  | ok (plan : Plan) (size : ℕ)
  | compressionBudgetExceeded
deriving DecidableEq, Repr

/-- Modelled from the spec: the attempt loop (§4.2), tried on a list of
attempt numbers in order.  `encodeSize p` is the byte size of the artifact
produced by re-extracting and re-encoding under plan `p` (encoding itself
is delegated to a codec library; only its size is observed).  The first
attempt whose artifact fits the budget `B` returns it; if the list is
exhausted the encoder fails with `CompressionBudgetExceeded`. -/
def attemptLoop (encodeSize : Plan → ℕ) (B : ℕ) (fps0 : ℤ) (scale0 : ℚ) :
    List ℕ → EncodeResult
  | [] => .compressionBudgetExceeded
  | n :: rest =>
    let p := planAt fps0 scale0 n
    if encodeSize p ≤ B then .ok p (encodeSize p)
    else attemptLoop encodeSize B fps0 scale0 rest

/-- Modelled from the spec: the adaptive encoder (§4.2) — attempts
`0, 1, …, maxAttempts` in order. -/
def adaptiveEncode (encodeSize : Plan → ℕ) (B : ℕ) (fps0 : ℤ) (scale0 : ℚ) :
    EncodeResult :=
  attemptLoop encodeSize B fps0 scale0 (List.range (maxAttempts + 1))

end AdaptiveEncoder

/-!  Helper lemmas about the sampling arithmetic. -/

namespace VideoToGif

theorem one_le_frame_step (o : ℚ) (fps : ℤ) : 1 ≤ frame_step o fps := by
  unfold frame_step
  have h : (1 : ℤ) ≤ max 1 (pyint (effectiveFps o / (fps : ℚ))) := le_max_left _ _
  omega

theorem div_step_zero (S q : ℕ) (hS : 0 < S) : (S * q + S - 1) / S = q := by
  have h1 : S * q + S - 1 = S * q + (S - 1) := by omega
  rw [h1, Nat.mul_add_div hS, Nat.div_eq_of_lt (by omega : S - 1 < S)]
  omega

theorem div_step_succ (S q : ℕ) (hS : 0 < S) : (S * q + 1 + S - 1) / S = q + 1 := by
  have hm : S * (q + 1) = S * q + S := by ring
  have h1 : S * q + 1 + S - 1 = S * (q + 1) := by omega
  rw [h1, Nat.mul_div_cancel_left _ hS]

theorem div_step_mid (S q r : ℕ) (hS : 0 < S) (hr1 : 0 < r) (hr2 : r < S) :
    (S * q + r + 1 + S - 1) / S = (S * q + r + S - 1) / S := by
  have hm : S * (q + 1) = S * q + S := by ring
  have e1 : S * q + r + S - 1 = S * (q + 1) + (r - 1) := by omega
  have e2 : S * q + r + 1 + S - 1 = S * (q + 1) + r := by omega
  rw [e1, e2, Nat.mul_add_div hS, Nat.mul_add_div hS,
      Nat.div_eq_of_lt (by omega : r - 1 < S), Nat.div_eq_of_lt hr2]

theorem sampledIndices_eq (N S : ℕ) (hS : 0 < S) :
    sampledIndices N S = (List.range ((N + S - 1) / S)).map (fun k => k * S) := by
  induction N with
  | zero =>
      have h0 : (S - 1) / S = 0 := Nat.div_eq_of_lt (by omega)
      simp [sampledIndices, h0]
  | succ N ih =>
      by_cases h : N % S = 0
      · have hq : N = S * (N / S) := by
          have hd := Nat.div_add_mod N S
          omega
        have k1 : (N + S - 1) / S = N / S := by
          conv_lhs => rw [hq]
          exact div_step_zero S (N / S) hS
        have k2 : (N + 1 + S - 1) / S = N / S + 1 := by
          conv_lhs => rw [hq]
          exact div_step_succ S (N / S) hS
        rw [k1] at ih
        simp only [sampledIndices] at ih ⊢
        rw [k2, List.range_succ, List.filter_append, ih, List.range_succ,
            List.map_append]
        congr 1
        simp only [List.filter, h, decide_True, List.map_cons, List.map_nil]
        rw [Nat.mul_comm]
        exact congrArg (fun x => [x]) hq
      · have hq : N = S * (N / S) + N % S := (Nat.div_add_mod N S).symm
        have k3 : (N + 1 + S - 1) / S = (N + S - 1) / S := by
          conv_lhs => rw [hq]
          conv_rhs => rw [hq]
          exact div_step_mid S (N / S) (N % S) hS (Nat.pos_of_ne_zero h)
            (Nat.mod_lt _ hS)
        simp only [sampledIndices] at ih ⊢
        rw [k3, List.range_succ, List.filter_append, ih]
        simp [h]

theorem extracted_eq (frames : List Frame) (S : ℕ) (scale : ℚ) (hS : 0 < S) :
    extracted frames S scale =
      (List.range ((frames.length + S - 1) / S)).map
        (fun k => resize_frame (frames.getD (k * S) default) scale) := by
  unfold extracted
  rw [sampledIndices_eq _ _ hS, List.map_map]
  rfl

theorem extracted_length (frames : List Frame) (S : ℕ) (scale : ℚ) (hS : 0 < S) :
    (extracted frames S scale).length = (frames.length + S - 1) / S := by
  rw [extracted_eq _ _ _ hS, List.length_map, List.length_range]

theorem ceil_natCast_div (N S : ℕ) (hS : 0 < S) :
    ⌈(N : ℚ) / (S : ℚ)⌉ = (((N + S - 1) / S : ℕ) : ℤ) := by
  have hS0 : (0 : ℚ) < (S : ℚ) := by exact_mod_cast hS
  have key : S * ((N + S - 1) / S) + (N + S - 1) % S + 1 = N + S := by
    have := Nat.div_add_mod (N + S - 1) S
    omega
  have hlt : (N + S - 1) % S + 1 ≤ S := Nat.mod_lt _ hS
  have keyQ : (S : ℚ) * (((N + S - 1) / S : ℕ) : ℚ) + (((N + S - 1) % S : ℕ) : ℚ) + 1
      = (N : ℚ) + (S : ℚ) := by exact_mod_cast key
  have hltQ : (((N + S - 1) % S : ℕ) : ℚ) + 1 ≤ (S : ℚ) := by exact_mod_cast hlt
  have hnnQ : (0 : ℚ) ≤ (((N + S - 1) % S : ℕ) : ℚ) := by positivity
  rw [Int.ceil_eq_iff]
  refine ⟨?_, ?_⟩
  · rw [lt_div_iff₀ hS0]
    simp only [Int.cast_natCast]
    nlinarith [keyQ, hltQ, hnnQ]
  · rw [div_le_iff₀ hS0]
    simp only [Int.cast_natCast]
    nlinarith [keyQ, hltQ, hnnQ]

/-!  Claims about the frame extractor's stride and sampling (C2, C4, C5). -/

/-- C2 counterexample: the claim says the stride is
`max(1, round(native_fps / fps))`.  For a source with native frame rate 29
and requested fps 10 the code's stride is `max(1, int(29/10)) = 2`
(truncation), while the claimed formula gives `max(1, round(2.9)) = 3`. -/
theorem c2_stride_counterexample :
    ((frame_step 29 10 : ℕ) : ℤ) ≠ max 1 (round ((29 : ℚ) / 10)) := by
  have h1 : frame_step 29 10 = 2 := by
    norm_num [frame_step, pyint, effectiveFps]; rfl
  have h2 : round ((29 : ℚ) / 10) = 3 := by norm_num [round_eq]
  rw [h1, h2]
  decide

/-- C2 (amended): for positive native fps and positive requested fps, the
stride is `max(1, ⌊native_fps / fps⌋)` (Python `int()` truncates), and the
extractor emits exactly the source frames at indices 0, stride, 2·stride, …
in source order (each resized). -/
theorem c2_stride_and_samples (frames : List Frame) (native : ℚ) (fps : ℤ)
    (scale : ℚ) (h1 : 0 < native) (h2 : 0 < fps) :
    ((frame_step native fps : ℕ) : ℤ) = max 1 ⌊native / (fps : ℚ)⌋ ∧
    extracted frames (frame_step native fps) scale =
      (List.range ((frames.length + frame_step native fps - 1) /
          frame_step native fps)).map
        (fun k => resize_frame (frames.getD (k * frame_step native fps) default)
          scale) := by
  constructor
  · have hnn : (0 : ℚ) ≤ native / ((fps : ℤ) : ℚ) := by
      apply div_nonneg h1.le
      exact_mod_cast h2.le
    unfold frame_step pyint effectiveFps
    rw [if_neg (not_le.mpr h1), if_pos hnn]
    have hmax : (1 : ℤ) ≤ max 1 ⌊native / ((fps : ℤ) : ℚ)⌋ := le_max_left _ _
    omega
  · exact extracted_eq frames _ scale (one_le_frame_step native fps)

/-- C2 witness. -/
theorem c2_stride_and_samples_witness :
    ((frame_step 30 10 : ℕ) : ℤ) = max 1 ⌊(30 : ℚ) / ((10 : ℤ) : ℚ)⌋ ∧
    extracted [⟨6, 4⟩, ⟨6, 4⟩, ⟨6, 4⟩, ⟨6, 4⟩] (frame_step 30 10) 1 =
      (List.range ((([⟨6, 4⟩, ⟨6, 4⟩, ⟨6, 4⟩, ⟨6, 4⟩] : List Frame).length +
          frame_step 30 10 - 1) / frame_step 30 10)).map
        (fun k => resize_frame
          (([⟨6, 4⟩, ⟨6, 4⟩, ⟨6, 4⟩, ⟨6, 4⟩] : List Frame).getD
            (k * frame_step 30 10) default) 1) :=
  c2_stride_and_samples [⟨6, 4⟩, ⟨6, 4⟩, ⟨6, 4⟩, ⟨6, 4⟩] 30 10 1
    (by norm_num) (by norm_num)

/-- C4: a video with N decodable frames sampled at stride S ≥ 1 yields
exactly ⌈N/S⌉ frames. -/
theorem c4_frame_count (frames : List Frame) (S : ℕ) (scale : ℚ)
    (hS : 0 < S) :
    ((extracted frames S scale).length : ℤ) =
      ⌈(frames.length : ℚ) / (S : ℚ)⌉ := by
  rw [extracted_length _ _ _ hS, ceil_natCast_div _ _ hS]

/-- C4 witness: 5 frames at stride 2 yield ⌈5/2⌉ = 3 frames. -/
theorem c4_frame_count_witness :
    ((extracted [⟨2, 2⟩, ⟨2, 2⟩, ⟨2, 2⟩, ⟨2, 2⟩, ⟨2, 2⟩] 2 1).length : ℤ) =
      ⌈(([⟨2, 2⟩, ⟨2, 2⟩, ⟨2, 2⟩, ⟨2, 2⟩, ⟨2, 2⟩] : List Frame).length : ℚ) /
        ((2 : ℕ) : ℚ)⌉ :=
  c4_frame_count [⟨2, 2⟩, ⟨2, 2⟩, ⟨2, 2⟩, ⟨2, 2⟩, ⟨2, 2⟩] 2 1 (by norm_num)

/-- C5 counterexample: the claim says resized dimensions are
`round(original × scale)` per axis; on a 7×7 frame at scale 0.7 the code
(`int(7 * 0.7) = int(4.9) = 4`) disagrees with the claimed
`round(4.9) = 5`. -/
theorem c5_resize_counterexample :
    resize_frame ⟨7, 7⟩ (7/10) ≠ resize_frame_spec ⟨7, 7⟩ (7/10) := by
  have h1 : resize_frame ⟨7, 7⟩ (7/10) = ⟨4, 4⟩ := by
    norm_num [resize_frame, pyint]; rfl
  have h2 : resize_frame_spec ⟨7, 7⟩ (7/10) = ⟨5, 5⟩ := by
    norm_num [resize_frame_spec, round_eq]; rfl
  rw [h1, h2]
  decide

/-- C5 (amended): for 0 < scale with scale ≠ 1.0, the resized frame's
dimensions are `⌊original × scale⌋` per axis (Python `int()` truncation,
not rounding); no even-dimension adjustment is performed (none is needed
for GIF). -/
theorem c5_resize_floor (f : Frame) (scale : ℚ) (h0 : 0 < scale)
    (h1 : scale ≠ 1) :
    (resize_frame f scale).width = (⌊(f.width : ℚ) * scale⌋).toNat ∧
    (resize_frame f scale).height = (⌊(f.height : ℚ) * scale⌋).toNat := by
  unfold resize_frame pyint
  rw [if_neg h1, if_pos (by positivity), if_pos (by positivity)]
  exact ⟨rfl, rfl⟩

/-- C5 witness. -/
theorem c5_resize_floor_witness :
    (resize_frame ⟨7, 7⟩ (7/10)).width = (⌊((7 : ℕ) : ℚ) * (7/10)⌋).toNat ∧
    (resize_frame ⟨7, 7⟩ (7/10)).height = (⌊((7 : ℕ) : ℚ) * (7/10)⌋).toNat :=
  c5_resize_floor ⟨7, 7⟩ (7/10) (by norm_num) (by norm_num)

end VideoToGif

/-!  Claims about `convert_video_to_gif` (C7, C9, C10). -/

namespace VideoToGif

theorem convert_gifWritten_eq_success (v : VideoInput) (fps : ℤ) (scale : ℚ) :
    (convert_video_to_gif v fps scale).gifWritten =
      (convert_video_to_gif v fps scale).success := by
  unfold convert_video_to_gif
  dsimp only
  split_ifs <;> rfl

/-- C7: with a positive requested fps, `convert_video_to_gif` fails with one
of the two decode-error messages exactly when the source cannot be opened or
the sampling pass yields zero frames; and on every path the capture handle
is released before returning. -/
theorem c7_decode_error (v : VideoInput) (fps : ℤ) (scale : ℚ)
    (hfps : 0 < fps) :
    (convert_video_to_gif v fps scale).handleOpen = false ∧
    (isDecodeError (convert_video_to_gif v fps scale) ↔
      (v.openable = false ∨
        extracted v.frames (frame_step v.original_fps fps) scale = [])) := by
  have hf0 : ¬ (fps = 0) := by omega
  unfold convert_video_to_gif
  by_cases ho : v.openable = false
  · rw [if_pos ho]
    exact ⟨rfl, by simp [isDecodeError, ho]⟩
  · rw [if_neg ho, if_neg hf0]
    dsimp only
    by_cases he : extracted v.frames (frame_step v.original_fps fps) scale = []
    · rw [if_pos he]
      exact ⟨rfl, by simp [isDecodeError, he]⟩
    · rw [if_neg he]
      by_cases hs : v.saveOk = true
      · rw [if_pos hs]
        exact ⟨rfl, by simp [isDecodeError, ho, he]⟩
      · rw [if_neg hs]
        exact ⟨rfl, by simp [isDecodeError, ho, he]⟩

/-- C7 witness: an unopenable source. -/
theorem c7_decode_error_witness :
    (convert_video_to_gif ⟨false, 0, [], true⟩ 1 1).handleOpen = false ∧
    (isDecodeError (convert_video_to_gif ⟨false, 0, [], true⟩ 1 1) ↔
      ((⟨false, 0, [], true⟩ : VideoInput).openable = false ∨
        extracted ([] : List Frame) (frame_step 0 1) 1 = [])) :=
  c7_decode_error ⟨false, 0, [], true⟩ 1 1 (by norm_num)

/-- C9: `convert_video_to_gif` is a total function returning a
(success, message) pair — the Python body is wrapped in
`try/except Exception`, modelled here by totality of the definition — and
whenever it reports success, the GIF has been written to the output path
and the message is the success message. -/
theorem c9_success_writes_gif (v : VideoInput) (fps : ℤ) (scale : ℚ) :
    (convert_video_to_gif v fps scale).success = true →
    (convert_video_to_gif v fps scale).gifWritten = true ∧
    (convert_video_to_gif v fps scale).message = "Conversion successful" := by
  unfold convert_video_to_gif
  by_cases ho : v.openable = false
  · rw [if_pos ho]; intro h; cases h
  · rw [if_neg ho]
    by_cases hz : fps = 0
    · rw [if_pos hz]; intro h; cases h
    · rw [if_neg hz]
      dsimp only
      by_cases he : extracted v.frames (frame_step v.original_fps fps) scale = []
      · rw [if_pos he]; intro h; cases h
      · rw [if_neg he]
        by_cases hs : v.saveOk = true
        · rw [if_pos hs]; intro _; exact ⟨rfl, rfl⟩
        · rw [if_neg hs]; intro h; cases h

/-- C9 witness: a one-frame 30fps video converted at fps 10, scale 1. -/
theorem c9_success_writes_gif_witness :
    (convert_video_to_gif ⟨true, 30, [⟨640, 480⟩], true⟩ 10 1).gifWritten = true ∧
    (convert_video_to_gif ⟨true, 30, [⟨640, 480⟩], true⟩ 10 1).message =
      "Conversion successful" :=
  c9_success_writes_gif ⟨true, 30, [⟨640, 480⟩], true⟩ 10 1 (by
    norm_num [convert_video_to_gif, extracted, sampledIndices, frame_step,
      pyint, effectiveFps, resize_frame, List.range_succ])

/-- C10: whenever the source opens and yields at least one decodable frame,
the sampled sequence is non-empty (index 0 is always a multiple of the
stride), so the "No frames extracted from video" branch is unreachable. -/
theorem c10_first_frame_sampled (v : VideoInput) (fps : ℤ) (scale : ℚ)
    (ho : v.openable = true) (hne : v.frames ≠ []) :
    extracted v.frames (frame_step v.original_fps fps) scale ≠ [] ∧
    (convert_video_to_gif v fps scale).message ≠
      "No frames extracted from video" := by
  have hlen : 0 < v.frames.length := List.length_pos.mpr hne
  have hext : extracted v.frames (frame_step v.original_fps fps) scale ≠ [] := by
    have h0 : 0 ∈ sampledIndices v.frames.length (frame_step v.original_fps fps) := by
      unfold sampledIndices
      exact List.mem_filter.mpr ⟨List.mem_range.mpr hlen, by simp⟩
    have hsne := List.ne_nil_of_mem h0
    unfold extracted
    intro hcon
    exact hsne (List.map_eq_nil_iff.mp hcon)
  refine ⟨hext, ?_⟩
  unfold convert_video_to_gif
  rw [if_neg (by simp [ho])]
  by_cases hz : fps = 0
  · rw [if_pos hz]; simp
  · rw [if_neg hz]
    dsimp only
    rw [if_neg hext]
    by_cases hs : v.saveOk = true
    · rw [if_pos hs]; simp
    · rw [if_neg hs]; simp

/-- C10 witness. -/
theorem c10_first_frame_sampled_witness :
    extracted [⟨2, 2⟩] (frame_step 30 10) 1 ≠ [] ∧
    (convert_video_to_gif ⟨true, 30, [⟨2, 2⟩], true⟩ 10 1).message ≠
      "No frames extracted from video" :=
  c10_first_frame_sampled ⟨true, 30, [⟨2, 2⟩], true⟩ 10 1 rfl
    (List.cons_ne_nil _ _)

end VideoToGif

/-!  Claims about the HTTP handler `VideoToGif.post` (C3, C6). -/

namespace VideoToGif

/-- C3 counterexample: the claim says a `.txt` upload is rejected with
400 `Invalid file format`, and an over-ceiling file (here 25 MB against the
claimed 20 MB ceiling) is rejected with 400 before any decode.  The handler
performs neither check: this 25 MB `.txt` request with valid parameters
proceeds to decoding and comes back as a 500 decode failure, not a 400. -/
theorem c3_validation_counterexample :
    is400 (post ⟨true, "file.txt", 26214400, 10, 1⟩
      ⟨⟨false, 0, [], true⟩, true, true, true⟩).resp = false ∧
    (post ⟨true, "file.txt", 26214400, 10, 1⟩
      ⟨⟨false, 0, [], true⟩, true, true, true⟩).resp =
      .serverError "Could not open video file" := by
  norm_num [post, convert_video_to_gif, is400]
  simp

/-- C3 (amended): the handler returns 400 exactly when the request has no
`video` field, an empty filename, or a non-positive fps or scale.  No
extension or file-size validation exists in the handler. -/
theorem c3_badrequest_iff (req : Request) (env : Env) :
    is400 (post req env).resp = true ↔
      (req.hasVideo = false ∨ req.filename = "" ∨
        req.fps ≤ 0 ∨ req.scale ≤ 0) := by
  unfold post
  by_cases h1 : req.hasVideo = false
  · rw [if_pos h1]
    simp [is400, h1]
  · rw [if_neg h1]
    by_cases h2 : req.filename = ""
    · rw [if_pos h2]
      simp [is400, h1, h2]
    · rw [if_neg h2]
      by_cases h3 : req.fps ≤ 0 ∨ req.scale ≤ 0
      · rw [if_pos h3]
        simp only [is400, true_iff, iff_true]
        tauto
      · rw [if_neg h3]
        dsimp only
        constructor
        · intro habs
          exfalso
          revert habs
          split_ifs <;> simp [is400]
        · intro habs
          rcases habs with h | h | h | h
          · exact absurd h h1
          · exact absurd h h2
          · exact absurd (Or.inl h) h3
          · exact absurd (Or.inr h) h3

/-- C6 counterexample: the claim says temporary files are always cleaned up
before returning and a permission-denied cleanup failure is reported as a
distinct error.  On the non-positive-parameter path (`fps = 0` here) with
`safe_remove` failing (EACCES through all retries), the handler returns the
ordinary 400 parameter message while the saved upload still exists: the
cleanup failure is masked and the file leaks. -/
theorem c6_cleanup_counterexample :
    post ⟨true, "clip.mp4", 1000, 0, 1⟩
      ⟨⟨true, 30, [⟨640, 480⟩], true⟩, false, true, true⟩ =
      ⟨.badRequest "FPS and scale must be positive", true, false⟩ := by
  norm_num [post]
  simp

/-- C6 (amended): on the paths past parameter validation the handler does
clean up — a failed input removal yields the distinct input-cleanup 500, a
successful one leaves no input file, and on full success (conversion, send
and output removal all succeed) no temporary file remains.  The claim fails
only on the non-positive-parameter path, where a failed input removal is
silently ignored (see the counterexample), and on a `send_file` failure,
where the output is not removed. -/
theorem c6_cleanup_paths (req : Request) (env : Env)
    (h1 : req.hasVideo = true) (h2 : req.filename ≠ "")
    (h3 : 0 < req.fps) (h4 : 0 < req.scale) :
    (env.removeInputOk = false →
      (post req env).resp =
        .serverError "Failed to clean up input file due to access issue" ∧
      (post req env).inputExists = true) ∧
    (env.removeInputOk = true → (post req env).inputExists = false) ∧
    (env.removeInputOk = true → env.sendOk = true →
      env.removeOutputOk = true →
      (post req env).outputExists = false) := by
  have hny : ¬ req.hasVideo = false := by simp [h1]
  have hcond : ¬ (req.fps ≤ 0 ∨ req.scale ≤ 0) := by
    push_neg
    exact ⟨h3, h4⟩
  unfold post
  rw [if_neg hny, if_neg h2, if_neg hcond]
  dsimp only
  refine ⟨fun h5 => ?_, fun h5 => ?_, fun h5 h6 h7 => ?_⟩
  · rw [if_pos h5]
    exact ⟨rfl, rfl⟩
  · rw [if_neg (by simp [h5])]
    by_cases hs : (convert_video_to_gif env.video req.fps req.scale).success = false
    · rw [if_pos hs]
    · rw [if_neg hs]
      by_cases hsend : env.sendOk = false
      · rw [if_pos hsend]
      · rw [if_neg hsend]
        by_cases hro : env.removeOutputOk = false
        · rw [if_pos hro]
        · rw [if_neg hro]
  · rw [if_neg (by simp [h5])]
    by_cases hs : (convert_video_to_gif env.video req.fps req.scale).success = false
    · rw [if_pos hs]
      show (convert_video_to_gif env.video req.fps req.scale).gifWritten = false
      rw [convert_gifWritten_eq_success, hs]
    · rw [if_neg hs]
      rw [if_neg (by simp [h6]), if_neg (by simp [h7])]

/-- C6 witness: a fully successful request, and the same request with the
input removal failing. -/
theorem c6_cleanup_paths_witness :
    ((⟨⟨true, 30, [⟨640, 480⟩], true⟩, true, true, true⟩ : Env).removeInputOk = true →
      (post ⟨true, "clip.mp4", 1000, 10, 1⟩
        ⟨⟨true, 30, [⟨640, 480⟩], true⟩, true, true, true⟩).inputExists = false) ∧
    ((⟨⟨true, 30, [⟨640, 480⟩], true⟩, true, true, true⟩ : Env).removeInputOk = true →
      (⟨⟨true, 30, [⟨640, 480⟩], true⟩, true, true, true⟩ : Env).sendOk = true →
      (⟨⟨true, 30, [⟨640, 480⟩], true⟩, true, true, true⟩ : Env).removeOutputOk = true →
      (post ⟨true, "clip.mp4", 1000, 10, 1⟩
        ⟨⟨true, 30, [⟨640, 480⟩], true⟩, true, true, true⟩).outputExists = false) :=
  (c6_cleanup_paths ⟨true, "clip.mp4", 1000, 10, 1⟩
    ⟨⟨true, 30, [⟨640, 480⟩], true⟩, true, true, true⟩
    rfl (by simp) (by norm_num) (by norm_num)).2

end VideoToGif

/-!  Claim about the upload collaborator (C8). -/

namespace ImageService

/-- C8: `upload_image` is total (the Python body is wrapped in
`try/except Exception`, so the handler can never crash on it); every failure
mode — a raising `requests.post`, malformed JSON, non-200 status, or an
unexpected JSON shape — yields the single failure shape
`success = False, url = None` with an error message present; and when the
response carries a collaborator error message, that message is the one
passed through. -/
theorem c8_upload_failures (o : HttpOutcome) :
    (isFailureOutcome o →
      (upload_image o).success = false ∧
      (upload_image o).url = none ∧
      (upload_image o).error.isSome = true) ∧
    (∀ status b m, o = .response status b → b.jsonOk = true →
      ¬(status = 200 ∧ b.jstatus = some 200) → b.errorMessage = some m →
      (upload_image o).error = some m) := by
  constructor
  · intro hfail
    cases o with
    | raised msg => exact ⟨rfl, rfl, rfl⟩
    | response status b =>
      unfold upload_image
      dsimp only
      by_cases hj : b.jsonOk = false
      · rw [if_pos hj]
        exact ⟨rfl, rfl, rfl⟩
      · rw [if_neg hj]
        by_cases hok : status = 200 ∧ b.jstatus = some 200
        · rw [if_pos hok]
          cases hu : b.dataUrl with
          | some u =>
            exfalso
            apply hfail
            refine ⟨?_, hok.1, hok.2, ?_⟩
            · cases h : b.jsonOk
              · exact absurd h hj
              · rfl
            · rw [hu]; rfl
          | none => exact ⟨rfl, rfl, rfl⟩
        · rw [if_neg hok]
          exact ⟨rfl, rfl, rfl⟩
  · intro status b m ho hj hnot hmsg
    subst ho
    unfold upload_image
    dsimp only
    rw [if_neg (by simp [hj]), if_neg hnot, hmsg]
    rfl

/-- C8 witness: an HTTP 503 whose JSON body carries an error message. -/
theorem c8_upload_failures_witness :
    (upload_image (.response 503 ⟨true, none, none, some "server error"⟩)).success
      = false ∧
    (upload_image (.response 503 ⟨true, none, none, some "server error"⟩)).error
      = some "server error" :=
  ⟨((c8_upload_failures (.response 503 ⟨true, none, none, some "server error"⟩)).1
      (by simp [isFailureOutcome])).1,
   (c8_upload_failures (.response 503 ⟨true, none, none, some "server error"⟩)).2
      503 ⟨true, none, none, some "server error"⟩ "server error" rfl rfl
      (by simp) rfl⟩

end ImageService

/-!  Claim about the adaptive size-compression loop (C1).  The size-bounded
variant is described by the spec but its code is not in this checkout, so
the loop is modelled from the spec (`AdaptiveEncoder`). -/

namespace AdaptiveEncoder

theorem attemptLoop_all_over (encodeSize : Plan → ℕ) (B : ℕ) (fps0 : ℤ)
    (scale0 : ℚ) (l : List ℕ)
    (h : ∀ n ∈ l, B < encodeSize (planAt fps0 scale0 n)) :
    attemptLoop encodeSize B fps0 scale0 l = .compressionBudgetExceeded := by
  induction l with
  | nil => rfl
  | cons n rest ih =>
    simp only [attemptLoop]
    rw [if_neg (not_le.mpr (h n (List.mem_cons_self n rest)))]
    exact ih (fun m hm => h m (List.mem_cons_of_mem _ hm))

theorem attemptLoop_ok_fits (encodeSize : Plan → ℕ) (B : ℕ) (fps0 : ℤ)
    (scale0 : ℚ) (l : List ℕ) (p : Plan) (s : ℕ)
    (h : attemptLoop encodeSize B fps0 scale0 l = .ok p s) :
    s ≤ B ∧ s = encodeSize p := by
  induction l with
  | nil => cases h
  | cons n rest ih =>
    rw [attemptLoop] at h
    by_cases hc : encodeSize (planAt fps0 scale0 n) ≤ B
    · rw [if_pos hc] at h
      injection h with h1 h2
      subst h1
      subst h2
      exact ⟨hc, rfl⟩
    · rw [if_neg hc] at h
      exact ih h

/-- C1: the adaptive encoder is a bounded attempt loop over attempts
`0, 1, …, maxAttempts`; when every attempt's artifact exceeds the byte
budget B it fails with `CompressionBudgetExceeded`, and whenever it returns
an artifact, that artifact's size is within B — it never returns an
oversized artifact. -/
theorem c1_budget_enforced (encodeSize : Plan → ℕ) (B : ℕ) (fps0 : ℤ)
    (scale0 : ℚ) :
    ((∀ n, n ≤ maxAttempts → B < encodeSize (planAt fps0 scale0 n)) →
      adaptiveEncode encodeSize B fps0 scale0 = .compressionBudgetExceeded) ∧
    (∀ p s, adaptiveEncode encodeSize B fps0 scale0 = .ok p s → s ≤ B) := by
  constructor
  · intro h
    apply attemptLoop_all_over
    intro n hn
    have hlt : n < maxAttempts + 1 := List.mem_range.mp hn
    exact h n (by omega)
  · intro p s hok
    exact (attemptLoop_ok_fits _ _ _ _ _ _ _ hok).1

end AdaptiveEncoder

namespace AdaptiveEncoder

/-- C1 witness: with every attempt producing 100 bytes against a 10-byte
budget the loop fails with `CompressionBudgetExceeded`; with a first
attempt of 7 bytes the returned size fits the budget. -/
theorem c1_budget_enforced_witness :
    adaptiveEncode (fun _ => 100) 10 10 1 = .compressionBudgetExceeded ∧
    (7 : ℕ) ≤ 10 :=
  ⟨(c1_budget_enforced (fun _ => 100) 10 10 1).1 (fun n _ => by norm_num),
   (c1_budget_enforced (fun _ => 7) 10 10 1).2 ⟨10, 1⟩ 7 rfl⟩

end AdaptiveEncoder
